import Mathlib

/-!
# Verification of `feincms3_sites/middleware.py`

A shallow embedding of the middleware module of `feincms3-sites`.

Modelling choices:

* A `Site` record carries the three fields this module reads: `host`,
  `default_language` (a Django `CharField`, where the empty string is the
  falsy "no default language" value) and `strRep`, the value produced by
  interpolating the site object into a string (`"%s" % request.site`);
  the model of `Site` itself lives outside this module, so `strRep` is kept
  abstract as a field.
* A `Request` mirrors the attributes the module touches.  `site` has type
  `Option (Option Site)`: the outer `Option` models attribute presence
  (`hasattr(request, "site")`), the inner one the attribute's value, which
  the resolver may set to Python `None`.
* All process-wide mutable state the module manipulates is gathered in `St`:
  the `_current_site` context variable, the active translation language
  (the `django.utils.translation` collaborator) and the list of emitted
  warnings.  The request object is also threaded through `St` because the
  middlewares mutate it in place.
* A middleware stage (`get_response` and the handlers the module builds)
  is a function `St → St × Except Err Response`; raising an exception is
  returning `Except.error`, and the mutated state is visible to the caller
  on both paths, as in Python.
* External collaborators (`Site.objects.for_host`, the page query feeding
  `feincms3.apps.apps_urlconf`, `translation.get_language_from_request`)
  are parameters of the definitions that call them.
-/

/-- The tenant record, restricted to the fields `middleware.py` reads. -/
structure Site where
  host : String
  /-- Django `CharField`; `""` is the falsy "no default language" value. -/
  default_language : String
  /-- The string interpolation of the site object (`"%s" % site`). -/
  strRep : String
deriving DecidableEq, Repr

/-- The request attributes touched by the module.  `site = none` models a
request without a `site` attribute; `site = some v` models the attribute
being present with value `v` (which may itself be Python `None`). -/
structure Request where
  host : String
  is_secure : Bool
  full_path : String
  site : Option (Option Site) := none
  urlconf : Option String := none
  LANGUAGE_CODE : Option String := none
deriving DecidableEq, Repr

/-- The response attributes touched by the module.  `vary` is the list of
member tokens of the `Vary` header, `contentLanguage` the
`Content-Language` header, `payload` an abstract body distinguishing
responses produced by different stages. -/
structure Response where
  status : Nat
  location : Option String := none
  vary : List String := []
  contentLanguage : Option String := none
  payload : String := ""
deriving DecidableEq, Repr

/-- Exceptions the module can raise or propagate. -/
inductive Err where
  | http404 (msg : String)
  | improperlyConfigured (msg : String)
  /-- any other Python exception, e.g. one raised by downstream code -/
  | pyExc (msg : String)
deriving DecidableEq, Repr

/-- The process state threaded through a request: the `_current_site`
context variable (`none` = unset), the active translation language, the
warnings emitted so far, and the request object (mutated in place). -/
structure St where
  req : Request
  currentSite : Option Site := none
  activeLanguage : String := ""
  warnings : List String := []
deriving DecidableEq, Repr

/-- A middleware stage: consumes the state (including the request),
returns the final state together with either a response or an exception. -/
abbrev Handler := St → St × Except Err Response

/-- Python `repr` of a string, for hostnames without quotes or escapes. -/
def pyRepr (s : String) : String := "'" ++ s ++ "'"

/-- Embedding of the generator-based context manager `set_current_site`.
`token` records the previous value of the `_current_site` context
variable.  The source has no `try`/`finally` around the `yield`: when the
wrapped body raises, the exception is re-raised at the `yield` point and
the `reset(token)` following it never runs, so the reset only happens on
the normal-return path. -/
def set_current_site (site : Site) (body : Handler) (st : St) :
    St × Except Err Response :=
  let token := st.currentSite
  match body { st with currentSite := some site } with
  | (st1, Except.ok resp) => ({ st1 with currentSite := token }, Except.ok resp)
  | (st1, Except.error e) => (st1, Except.error e)

/-- `current_site()`: `_current_site.get(None)`. -/
def current_site (st : St) : Option Site := st.currentSite

/-- The warning text of `apps_urlconf_for_site`. -/
def apps_urlconf_for_site_warning : String :=
  "apps_urlconf_for_site is deprecated since feincms3.apps.apps_urlconf" ++
  " now automatically filters by site."

/-- `apps_urlconf_for_site(site)`: emits its deprecation warning, then
delegates to the external collaborators (the page query over
`page_model.objects.active(site)` and `feincms3.apps.apps_urlconf`),
abstracted as `urlconfFor`. -/
def apps_urlconf_for_site (urlconfFor : Option Site → String)
    (site : Option Site) (st : St) : St × String :=
  ({ st with warnings := st.warnings ++ [apps_urlconf_for_site_warning] },
   urlconfFor site)

/-- The 404 message of `site_middleware` / `apps_middleware`. -/
def no_config_msg (host : String) : String :=
  "No configuration found for " ++ pyRepr host

/-- `site_middleware(get_response)`: assigns `request.site` from the site
repository (`for_host`), raises `Http404` when no site matched, and
otherwise runs the next stage inside a `set_current_site` scope. -/
def site_middleware (for_host : String → Option Site)
    (get_response : Handler) : Handler :=
  fun st0 =>
    let st := { st0 with
      req := { st0.req with site := some (for_host st0.req.host) } }
    match for_host st0.req.host with
    | none => (st, Except.error (Err.http404 (no_config_msg st0.req.host)))
    | some s => set_current_site s get_response st

/-- The warning text of `apps_middleware`. -/
def apps_middleware_warning : String :=
  "feincms3_sites.middleware.apps_middleware is deprecated." ++
  " Simply use feincms3_sites.middleware.site_middleware and" ++
  " feincms3.apps.apps_middleware directly after each other."

/-- The per-request handler built by `apps_middleware`: resolve the site,
404 when none, assign `request.urlconf` via `apps_urlconf_for_site`, and
run the next stage inside a `set_current_site` scope. -/
def apps_middleware_handler (for_host : String → Option Site)
    (urlconfFor : Option Site → String) (get_response : Handler) : Handler :=
  fun st0 =>
    let st := { st0 with
      req := { st0.req with site := some (for_host st0.req.host) } }
    match for_host st0.req.host with
    | none => (st, Except.error (Err.http404 (no_config_msg st0.req.host)))
    | some s =>
      let p := apps_urlconf_for_site urlconfFor (some s) st
      let st2 := { p.1 with req := { p.1.req with urlconf := some p.2 } }
      set_current_site s get_response st2

/-- `apps_middleware(get_response)`: at construction time it emits its
deprecation warning (returned as the first component) and returns the
per-request handler. -/
def apps_middleware (for_host : String → Option Site)
    (urlconfFor : Option Site → String) (get_response : Handler) :
    List String × Handler :=
  ([apps_middleware_warning],
   apps_middleware_handler for_host urlconfFor get_response)

/-- The `ImproperlyConfigured` message of `redirect_to_site_middleware`. -/
def redirect_misconfigured_msg : String :=
  "No \"site\" attribute on request. Insert site_middleware" ++
  " or apps_middleware before redirect_to_site_middleware."

/-- `HttpResponsePermanentRedirect(url)`: a 301 response with `Location`. -/
def HttpResponsePermanentRedirect (url : String) : Response :=
  { status := 301, location := some url }

/-- `redirect_to_site_middleware(get_response)` with the
`settings.SECURE_SSL_REDIRECT` flag as parameter `secure_ssl_redirect`.
Pass through when the host matches and HTTPS is not being enforced or the
request is already secure; otherwise answer a permanent redirect built by
`"http%s://%s%s" % (...)`. -/
def redirect_to_site_middleware (secure_ssl_redirect : Bool)
    (get_response : Handler) : Handler :=
  fun st =>
    match st.req.site with
    | none =>
      (st, Except.error (Err.improperlyConfigured redirect_misconfigured_msg))
    | some none =>
      -- `request.site.host` on a `None` site raises `AttributeError`;
      -- unreachable behind `site_middleware`, which never lets a `None`
      -- site through.
      (st, Except.error (Err.pyExc "AttributeError"))
    | some (some s) =>
      if st.req.host == s.host &&
          (!secure_ssl_redirect || st.req.is_secure) then
        get_response st
      else
        (st, Except.ok (HttpResponsePermanentRedirect
          ("http" ++
            (if secure_ssl_redirect || st.req.is_secure then "s" else "") ++
            "://" ++ s.strRep ++ st.req.full_path)))

/-- The `ImproperlyConfigured` message of `default_language_middleware`. -/
def default_language_misconfigured_msg : String :=
  "No \"site\" attribute on request. Insert site_middleware" ++
  " or apps_middleware before default_language_middleware."

/-- Case-insensitive equality of header names (ASCII, per character). -/
def ciEq (a b : String) : Bool :=
  a.data.map Char.toLower == b.data.map Char.toLower

/-- Modelled from the spec: the external collaborator
`django.utils.cache.patch_vary_headers`, at the level of the list of
`Vary` member tokens — each requested header is appended unless a
case-insensitively equal token is already present, and existing tokens
are kept as they are. -/
def patch_vary_headers (resp : Response) (newheaders : List String) :
    Response :=
  let additional :=
    newheaders.filter (fun h => !(resp.vary.any (fun v => ciEq v h)))
  { resp with vary := resp.vary ++ additional }

/-- `response.setdefault("Content-Language", v)`. -/
def setdefaultContentLanguage (resp : Response) (v : String) : Response :=
  match resp.contentLanguage with
  | some _ => resp
  | none => { resp with contentLanguage := some v }

/-- The response post-processing of `default_language_middleware`: when
the next stage returned normally, patch the `Vary` header and default
`Content-Language` to `translation.get_language()` at response time (the
active language in the state returned by the next stage); when it raised,
the exception propagates and neither header is touched. -/
def dlm_postprocess (r : St × Except Err Response) :
    St × Except Err Response :=
  match r with
  | (st1, Except.ok resp) =>
    let resp := patch_vary_headers resp ["Accept-Language"]
    let resp := setdefaultContentLanguage resp st1.activeLanguage
    (st1, Except.ok resp)
  | (st1, Except.error e) => (st1, Except.error e)

/-- `default_language_middleware(get_response)` with the external
negotiation collaborator `translation.get_language_from_request`
abstracted as `glfr`.  Selects the site's `default_language` when truthy,
otherwise negotiates; activates it (`translation.activate`), stamps
`request.LANGUAGE_CODE = translation.get_language()`, runs the next
stage, then post-processes the response. -/
def default_language_middleware (glfr : Request → String)
    (get_response : Handler) : Handler :=
  fun st =>
    match st.req.site with
    | none =>
      (st, Except.error
        (Err.improperlyConfigured default_language_misconfigured_msg))
    | some none =>
      -- `request.site.default_language` on a `None` site raises
      -- `AttributeError`; unreachable behind `site_middleware`.
      (st, Except.error (Err.pyExc "AttributeError"))
    | some (some s) =>
      let language :=
        if s.default_language == "" then glfr st.req else s.default_language
      let st1 := { st with activeLanguage := language }
      let st2 := { st1 with
        req := { st1.req with LANGUAGE_CODE := some st1.activeLanguage } }
      dlm_postprocess (get_response st2)

/-- Modelled from the spec: the "legacy routing-table construction" stage
that the non-deprecated composition inserts between `site_middleware` and
the next stage — it assigns `request.urlconf` from
`apps_urlconf_for_site(request.site)` and delegates. -/
def legacy_routing_stage (urlconfFor : Option Site → String)
    (get_response : Handler) : Handler :=
  fun st =>
    let p := apps_urlconf_for_site urlconfFor (st.req.site.getD none) st
    let st2 := { p.1 with req := { p.1.req with urlconf := some p.2 } }
    get_response st2

/-- Modelled from the spec: the non-deprecated composition —
`site_middleware` followed by the legacy routing-table construction. -/
def composed_apps_pipeline (for_host : String → Option Site)
    (urlconfFor : Option Site → String) (get_response : Handler) : Handler :=
  site_middleware for_host (legacy_routing_stage urlconfFor get_response)

/-! ## Concrete fixtures used by witnesses and evaluation theorems -/

/-- A demo tenant: canonical host `example.com`, default language `de`. -/
def demoSite : Site :=
  { host := "example.com", default_language := "de", strRep := "example.com" }

/-- A demo request arriving at a non-canonical host. -/
def demoReq : Request :=
  { host := "alt.example.com", is_secure := false, full_path := "/p?q=1" }

/-- Initial state for the demo request: context variable unset. -/
def demoSt : St := { req := demoReq }

/-- A next stage that returns a plain 200 response. -/
def okHandler : Handler := fun st => (st, Except.ok { status := 200 })

/-- A next stage that raises an exception. -/
def failHandler : Handler := fun st => (st, Except.error (Err.pyExc "boom"))

/-- A site repository in which no host matches. -/
def noSiteRepo : String → Option Site := fun _ => none

/-- A site repository that maps every host to the demo tenant. -/
def demoSiteRepo : String → Option Site := fun _ => some demoSite

/-! ## Claims -/

/-- Claim C1: the claim says `set_current_site` restores the previous
value of the Current-Site Context on every exit path, including when the
wrapped body raises.  The code restores it on the normal path (last
conjunct) but the context manager has no `try`/`finally`, so when the
body raises the `reset(token)` after the `yield` is skipped and the
context variable keeps the site instead of its prior unset value (second
conjunct): the code contradicts the claim on the exception path. -/
theorem set_current_site_exception_leaks :
    demoSt.currentSite = none ∧
    (set_current_site demoSite failHandler demoSt).1.currentSite =
      some demoSite ∧
    (set_current_site demoSite failHandler demoSt).2 =
      Except.error (Err.pyExc "boom") ∧
    (set_current_site demoSite okHandler demoSt).1.currentSite = none :=
  ⟨rfl, rfl, rfl, rfl⟩

/-- Claim C3: when no tenant matches the request host, `site_middleware`
raises `Http404` with a message carrying the attempted host, the next
stage is never invoked (the result does not depend on `g`), and the
Current-Site Context scope is never entered — the context variable is
unchanged. -/
theorem site_middleware_no_match (for_host : String → Option Site)
    (g : Handler) (st : St) (h : for_host st.req.host = none) :
    site_middleware for_host g st =
      ({ st with req := { st.req with site := some none } },
        Except.error (Err.http404 (no_config_msg st.req.host))) ∧
    (∃ pre post, no_config_msg st.req.host = pre ++ st.req.host ++ post) ∧
    (site_middleware for_host g st).1.currentSite = st.currentSite := by
  refine ⟨?_, ⟨"No configuration found for '", "'", ?_⟩, ?_⟩
  · simp [site_middleware, h]
  · have hlit : ("No configuration found for " ++ "'" : String) =
        "No configuration found for '" := by decide
    simp only [no_config_msg, pyRepr, ← String.append_assoc, hlit]
  · simp [site_middleware, h]

/-- Claim C3, witness at a concrete unmatched host. -/
theorem site_middleware_no_match_witness :
    site_middleware noSiteRepo okHandler demoSt =
      ({ demoSt with req := { demoSt.req with site := some none } },
        Except.error (Err.http404 (no_config_msg demoSt.req.host))) ∧
    (site_middleware noSiteRepo okHandler demoSt).1.currentSite =
      demoSt.currentSite :=
  ⟨(site_middleware_no_match noSiteRepo okHandler demoSt rfl).1,
   (site_middleware_no_match noSiteRepo okHandler demoSt rfl).2.2⟩

/-- Claim C10: even when resolution fails, `site_middleware` has already
assigned `request.site = None` before raising `Http404`, so the request
object is mutated and a `hasattr(request, "site")` check succeeds. -/
theorem site_middleware_mutates_request_on_404
    (for_host : String → Option Site) (g : Handler) (st : St)
    (h : for_host st.req.host = none) :
    (site_middleware for_host g st).1.req.site = some none ∧
    ((site_middleware for_host g st).1.req.site).isSome = true ∧
    (site_middleware for_host g st).2 =
      Except.error (Err.http404 (no_config_msg st.req.host)) := by
  simp [site_middleware, h]

/-- Claim C10, witness at a concrete unmatched host. -/
theorem site_middleware_mutates_request_on_404_witness :
    (site_middleware noSiteRepo okHandler demoSt).1.req.site = some none ∧
    ((site_middleware noSiteRepo okHandler demoSt).1.req.site).isSome = true ∧
    (site_middleware noSiteRepo okHandler demoSt).2 =
      Except.error (Err.http404 (no_config_msg demoSt.req.host)) :=
  site_middleware_mutates_request_on_404 noSiteRepo okHandler demoSt rfl

/-- Claim C2: `redirect_to_site_middleware` passes the request through and
returns the next stage's response exactly when the host matches the
site's canonical host and (SSL enforcement is off or the request is
secure); otherwise it answers, without consulting the next stage, a
permanent 301 redirect to `scheme://host/full_path` with
`scheme = https` iff enforcement is on or the request is secure, `host`
the site's string representation, and `full_path` the original path plus
query string. -/
theorem redirect_to_site_middleware_behavior (ssl : Bool) (g : Handler)
    (st : St) (s : Site) (h : st.req.site = some (some s)) :
    ((st.req.host == s.host && (!ssl || st.req.is_secure)) = true →
      redirect_to_site_middleware ssl g st = g st) ∧
    ((st.req.host == s.host && (!ssl || st.req.is_secure)) = false →
      redirect_to_site_middleware ssl g st =
        (st, Except.ok (HttpResponsePermanentRedirect
          ((if ssl || st.req.is_secure then "https" else "http") ++
            "://" ++ s.strRep ++ st.req.full_path)))) ∧
    (∀ url, (HttpResponsePermanentRedirect url).status = 301) := by
  refine ⟨fun hc => ?_, fun hc => ?_, fun url => rfl⟩
  · simp [redirect_to_site_middleware, h, hc]
  · have hs : ("http" ++ (if ssl || st.req.is_secure then "s" else "")
        : String) = (if ssl || st.req.is_secure then "https" else "http") := by
      cases hb : (ssl || st.req.is_secure) <;> simp [hb]
    simp only [redirect_to_site_middleware, h, hc, Bool.false_eq_true,
      if_false, ← hs]

/-- The demo request with the demo tenant already resolved onto it. -/
def demoStWithSite : St :=
  { req := { demoReq with site := some (some demoSite) } }

/-- Claim C2, witness: host mismatch with SSL enforcement off yields a
permanent redirect to `http://example.com/p?q=1`. -/
theorem redirect_to_site_middleware_behavior_witness :
    redirect_to_site_middleware false okHandler demoStWithSite =
      (demoStWithSite, Except.ok (HttpResponsePermanentRedirect
        ((if false || demoStWithSite.req.is_secure then "https" else "http")
          ++ "://" ++ demoSite.strRep ++ demoStWithSite.req.full_path))) :=
  (redirect_to_site_middleware_behavior false okHandler demoStWithSite
    demoSite rfl).2.1 (by decide)

/-- Claim C5: whenever the redirect branch is taken and SSL enforcement
is on or the request is already secure, the redirect target starts with
the `https` scheme — it is never downgraded. -/
theorem redirect_never_downgrades (ssl : Bool) (g : Handler) (st : St)
    (s : Site) (h : st.req.site = some (some s))
    (hbr : (st.req.host == s.host && (!ssl || st.req.is_secure)) = false)
    (hsec : (ssl || st.req.is_secure) = true) :
    redirect_to_site_middleware ssl g st =
      (st, Except.ok (HttpResponsePermanentRedirect
        ("https://" ++ (s.strRep ++ st.req.full_path)))) := by
  simp only [redirect_to_site_middleware, h, hbr, Bool.false_eq_true,
    if_false, hsec, if_true]
  have hlit : ("http" ++ "s" ++ "://" : String) = "https://" := by decide
  simp only [← String.append_assoc, hlit]

/-- The demo request arriving over HTTPS, tenant already resolved. -/
def demoSecureSt : St :=
  { req :=
      { demoReq with is_secure := true, site := some (some demoSite) } }

/-- Claim C5, witness: a secure request to a non-canonical host with SSL
enforcement off is redirected to an `https` URL. -/
theorem redirect_never_downgrades_witness :
    redirect_to_site_middleware false okHandler demoSecureSt =
      (demoSecureSt, Except.ok (HttpResponsePermanentRedirect
        ("https://" ++ (demoSite.strRep ++ demoReq.full_path)))) :=
  redirect_never_downgrades false okHandler demoSecureSt
    demoSite rfl (by decide) (by decide)

/-- Claim C4: on a request without a `site` attribute, both
`redirect_to_site_middleware` and `default_language_middleware` raise
`ImproperlyConfigured` — a configuration error distinct from the 404
family — without consulting the next stage (the results do not depend on
`g` or `g2`). -/
theorem missing_site_raises_improperly_configured (ssl : Bool)
    (glfr : Request → String) (g g2 : Handler) (st : St)
    (h : st.req.site = none) :
    redirect_to_site_middleware ssl g st =
      (st, Except.error
        (Err.improperlyConfigured redirect_misconfigured_msg)) ∧
    default_language_middleware glfr g2 st =
      (st, Except.error
        (Err.improperlyConfigured default_language_misconfigured_msg)) ∧
    (∀ m m', Err.improperlyConfigured m ≠ Err.http404 m') := by
  refine ⟨?_, ?_, fun m m' => by simp⟩
  · simp [redirect_to_site_middleware, h]
  · simp [default_language_middleware, h]

/-- Claim C4, witness: the demo request before site resolution. -/
theorem missing_site_raises_improperly_configured_witness :
    redirect_to_site_middleware true okHandler demoSt =
      (demoSt, Except.error
        (Err.improperlyConfigured redirect_misconfigured_msg)) ∧
    default_language_middleware (fun _ => "en") failHandler demoSt =
      (demoSt, Except.error
        (Err.improperlyConfigured default_language_misconfigured_msg)) :=
  ⟨(missing_site_raises_improperly_configured true (fun _ => "en")
      okHandler failHandler demoSt rfl).1,
   (missing_site_raises_improperly_configured true (fun _ => "en")
      okHandler failHandler demoSt rfl).2.1⟩

/-- The language `default_language_middleware` selects: the site's
`default_language` when truthy, otherwise the one negotiated from the
request by `translation.get_language_from_request` (`glfr`). -/
def selected_language (glfr : Request → String) (req : Request)
    (s : Site) : String :=
  if s.default_language == "" then glfr req else s.default_language

/-- Claim C6: with a resolved site, `default_language_middleware` selects
the site's `default_language` when one is set and otherwise the language
negotiated from the request; it activates that language and stamps it as
`request.LANGUAGE_CODE` on the state passed to the next stage, and the
overall result is the post-processing of the next stage's output on that
state. -/
theorem default_language_selection_and_stamping (glfr : Request → String)
    (g : Handler) (st : St) (s : Site) (h : st.req.site = some (some s)) :
    default_language_middleware glfr g st =
      dlm_postprocess (g { st with
        activeLanguage := selected_language glfr st.req s,
        req := { st.req with
          LANGUAGE_CODE := some (selected_language glfr st.req s) } }) ∧
    (s.default_language ≠ "" →
      selected_language glfr st.req s = s.default_language) ∧
    (s.default_language = "" →
      selected_language glfr st.req s = glfr st.req) := by
  refine ⟨?_, fun hne => ?_, fun he => ?_⟩
  · simp [default_language_middleware, selected_language, h]
  · simp [selected_language, beq_iff_eq, hne]
  · simp [selected_language, beq_iff_eq, he]

/-- A demo content-negotiation collaborator. -/
def demoGlfr : Request → String := fun _ => "en"

/-- Claim C6, witness: the demo tenant sets `default_language = "de"`,
and the middleware activates and stamps exactly that. -/
theorem default_language_selection_and_stamping_witness :
    default_language_middleware demoGlfr okHandler demoStWithSite =
      dlm_postprocess (okHandler { demoStWithSite with
        activeLanguage := selected_language demoGlfr demoStWithSite.req
          demoSite,
        req := { demoStWithSite.req with
          LANGUAGE_CODE := some (selected_language demoGlfr
            demoStWithSite.req demoSite) } }) ∧
    selected_language demoGlfr demoStWithSite.req demoSite = "de" :=
  ⟨(default_language_selection_and_stamping demoGlfr okHandler
      demoStWithSite demoSite rfl).1,
   (default_language_selection_and_stamping demoGlfr okHandler
      demoStWithSite demoSite rfl).2.1 (by decide)⟩

/-- Number of `Vary` member tokens case-insensitively equal to
`Accept-Language`. -/
def countAcceptLanguage (l : List String) : Nat :=
  (l.filter (fun v => ciEq v "Accept-Language")).length

/-- Claim C7: when the next stage returns a response normally (and leaves
the active language as activated), the middleware returns that response
with `Accept-Language` occurring exactly once among the `Vary` tokens —
appended when missing, not duplicated, existing tokens preserved — and
with `Content-Language` defaulted to the activated language exactly when
the next stage set none. -/
theorem default_language_response_headers (glfr : Request → String)
    (g : Handler) (st : St) (s : Site) (st1 : St) (resp : Response)
    (h : st.req.site = some (some s))
    (hg : g { st with
        activeLanguage := selected_language glfr st.req s,
        req := { st.req with
          LANGUAGE_CODE := some (selected_language glfr st.req s) } } =
      (st1, Except.ok resp))
    (hpres : st1.activeLanguage = selected_language glfr st.req s)
    (hcount : countAcceptLanguage resp.vary ≤ 1) :
    default_language_middleware glfr g st =
      (st1, Except.ok (setdefaultContentLanguage
        (patch_vary_headers resp ["Accept-Language"])
        st1.activeLanguage)) ∧
    countAcceptLanguage
      (patch_vary_headers resp ["Accept-Language"]).vary = 1 ∧
    (patch_vary_headers resp ["Accept-Language"]).vary =
      resp.vary ++
        (if resp.vary.any
            (fun v => ciEq v "Accept-Language") = true
         then [] else ["Accept-Language"]) ∧
    (resp.contentLanguage = none →
      (setdefaultContentLanguage
        (patch_vary_headers resp ["Accept-Language"])
        st1.activeLanguage).contentLanguage =
          some (selected_language glfr st.req s)) ∧
    (∀ c, resp.contentLanguage = some c →
      (setdefaultContentLanguage
        (patch_vary_headers resp ["Accept-Language"])
        st1.activeLanguage).contentLanguage = some c) := by
  refine ⟨?_, ?_, ?_, fun hnone => ?_, fun c hsome => ?_⟩
  · have hmain : default_language_middleware glfr g st =
        dlm_postprocess (g { st with
          activeLanguage := selected_language glfr st.req s,
          req := { st.req with
            LANGUAGE_CODE := some (selected_language glfr st.req s) } }) := by
      simp [default_language_middleware, selected_language, h]
    rw [hmain, hg]
    simp [dlm_postprocess]
  · cases hA : resp.vary.any
        (fun v => ciEq v "Accept-Language") with
    | true =>
      have hvary : (patch_vary_headers resp ["Accept-Language"]).vary =
          resp.vary := by
        simp [patch_vary_headers, List.filter, hA]
      rw [hvary]
      obtain ⟨x, hx, hpx⟩ := List.any_eq_true.mp hA
      have hmem : x ∈ resp.vary.filter
          (fun v => ciEq v "Accept-Language") :=
        List.mem_filter.mpr ⟨hx, hpx⟩
      have hpos : 0 < countAcceptLanguage resp.vary :=
        List.length_pos.mpr (List.ne_nil_of_mem hmem)
      omega
    | false =>
      have hzero : resp.vary.filter
          (fun v => ciEq v "Accept-Language") = [] :=
        List.filter_eq_nil_iff.mpr (by
          intro a ha
          have := List.any_eq_false.mp hA a ha
          simpa using this)
      simp [countAcceptLanguage, patch_vary_headers, List.filter, hA,
        List.filter_append, hzero]
      decide
  · cases hA : resp.vary.any
        (fun v => ciEq v "Accept-Language") with
    | true => simp [patch_vary_headers, List.filter, hA]
    | false => simp [patch_vary_headers, List.filter, hA]
  · simp [setdefaultContentLanguage, patch_vary_headers, hnone, hpres]
  · simp [setdefaultContentLanguage, patch_vary_headers, hsome]

/-- A demo response from the next stage with a pre-existing `Vary` token
and no `Content-Language`. -/
def varyResp : Response := { status := 200, vary := ["Cookie"] }

/-- A next stage returning `varyResp` without touching the state. -/
def varyHandler : Handler := fun st => (st, Except.ok varyResp)

/-- The demo state as activated by `default_language_middleware`. -/
def demoActivatedSt : St :=
  { demoStWithSite with
    activeLanguage := selected_language demoGlfr demoStWithSite.req demoSite,
    req := { demoStWithSite.req with
      LANGUAGE_CODE := some (selected_language demoGlfr demoStWithSite.req
        demoSite) } }

/-- Claim C7, witness: a next stage answering `Vary: Cookie` and no
`Content-Language` yields exactly one `Accept-Language` token and
`Content-Language: de`. -/
theorem default_language_response_headers_witness :
    default_language_middleware demoGlfr varyHandler demoStWithSite =
      (demoActivatedSt, Except.ok (setdefaultContentLanguage
        (patch_vary_headers varyResp ["Accept-Language"])
        demoActivatedSt.activeLanguage)) ∧
    countAcceptLanguage
      (patch_vary_headers varyResp ["Accept-Language"]).vary = 1 ∧
    (setdefaultContentLanguage
      (patch_vary_headers varyResp ["Accept-Language"])
      demoActivatedSt.activeLanguage).contentLanguage =
        some (selected_language demoGlfr demoStWithSite.req demoSite) :=
  ⟨(default_language_response_headers demoGlfr varyHandler demoStWithSite
      demoSite demoActivatedSt varyResp rfl rfl rfl (by decide)).1,
   (default_language_response_headers demoGlfr varyHandler demoStWithSite
      demoSite demoActivatedSt varyResp rfl rfl rfl (by decide)).2.1,
   (default_language_response_headers demoGlfr varyHandler demoStWithSite
      demoSite demoActivatedSt varyResp rfl rfl rfl
      (by decide)).2.2.2.1 rfl⟩

/-- Claim C8: each call of a deprecated entry point emits exactly one
deprecation warning and the warning changes nothing else:
`apps_urlconf_for_site` appends exactly one warning to the state and its
result is exactly the delegated computation `urlconfFor site`, and
`apps_middleware` emits exactly one construction-time warning and returns
exactly the warning-free per-request handler
`apps_middleware_handler`. -/
theorem deprecated_entry_points_warn_once (urlconfFor : Option Site → String)
    (site : Option Site) (st : St) (for_host : String → Option Site)
    (g : Handler) :
    apps_urlconf_for_site urlconfFor site st =
      ({ st with warnings := st.warnings ++ [apps_urlconf_for_site_warning] },
       urlconfFor site) ∧
    (apps_urlconf_for_site urlconfFor site st).1.warnings.length =
      st.warnings.length + 1 ∧
    (apps_urlconf_for_site urlconfFor site st).2 = urlconfFor site ∧
    apps_middleware for_host urlconfFor g =
      ([apps_middleware_warning],
       apps_middleware_handler for_host urlconfFor g) ∧
    (apps_middleware for_host urlconfFor g).1.length = 1 := by
  simp [apps_urlconf_for_site, apps_middleware]

/-- Claim C9: for every request and state, the per-request handler built
by the deprecated `apps_middleware` produces exactly the same outcome —
site resolution and 404 behavior, `request.urlconf` assignment, warnings
and Current-Site Context scope around the next stage — as
`composed_apps_pipeline`, the composition of the non-deprecated
`site_middleware` with the legacy routing-table construction stage. -/
theorem apps_middleware_refines_composition (for_host : String → Option Site)
    (urlconfFor : Option Site → String) (g : Handler) (st : St) :
    apps_middleware_handler for_host urlconfFor g st =
      composed_apps_pipeline for_host urlconfFor g st := by
  unfold apps_middleware_handler composed_apps_pipeline site_middleware
    legacy_routing_stage apps_urlconf_for_site set_current_site
  cases hfh : for_host st.req.host <;> simp [hfh]
